import Mathlib

/-!
# Verification of the xray firewall-proxy subsystem

A shallow embedding, in Lean 4, of the parts of the `xray` repository
(`src/xray/*.py`) that the specification's claims are about: the
configuration store (`config.py`), the default-ruleset matcher and decision
engine (`firewall.py`), the guest enricher (`enrichment.py`), the SOCKS5
gateway and its supervisor loop (`proxy.py`), the VM lifecycle glue
(`vm.py`) and the hypervisor command builder (`qemu.py`).

Python strings are modelled as Lean `String`s; the handful of Python string
primitives the code uses (`lower`, `strip`, `endswith`, `split`,
`partition`, `in`) are given explicit executable definitions over the
character list so that every theorem can be evaluated by the kernel.
Filesystem effects are modelled as explicit traces of `FsOp` operations;
the in-memory module state (`firewall` table, DNS cache, recent-connection
deque) is passed explicitly.  Wall-clock timestamps (`time.time()`) are
elided from connection records: no modelled behaviour depends on them.
-/

/-! ## Python string primitives -/

/-- ASCII lower-casing of one character (`str.lower` on the ASCII subset the
repository's hostnames and rule files use). -/
def asciiLower (c : Char) : Char :=
  if 'A' ≤ c ∧ c ≤ 'Z' then Char.ofNat (c.toNat + 32) else c

/-- Python `s.lower()`. -/
def pyLower (s : String) : String := ⟨s.data.map asciiLower⟩

/-- Python `s.endswith(suffix)`. -/
def pyEndsWith (s suffix : String) : Bool := suffix.data.isSuffixOf s.data

/-- Python `s.startswith(prefix)`. -/
def pyStartsWith (s p : String) : Bool := p.data.isPrefixOf s.data

/-- ASCII whitespace, as stripped by Python `str.strip()`. -/
def isPySpace (c : Char) : Bool := c = ' ' ∨ c = '\t' ∨ c = '\n' ∨ c = '\r'

/-- Python `s.strip()`. -/
def pyStrip (s : String) : String :=
  ⟨((s.data.dropWhile isPySpace).reverse.dropWhile isPySpace).reverse⟩

/-- Python `s.split(c)` for a one-character separator (used as
`port.split(":")` and to model `splitlines`). -/
def pySplitChar (s : String) (c : Char) : List String :=
  (s.data.splitOn c).map (fun l => ⟨l⟩)

/-- Python `s.partition(sep)` for a one-character separator, keeping the
parts before and after the first occurrence (the code discards the middle
component; when `sep` does not occur the tail is `""`). -/
def pyPartition (s : String) (sep : Char) : String × String :=
  let pre := s.data.takeWhile (fun c => c ≠ sep)
  match s.data.dropWhile (fun c => c ≠ sep) with
  | [] => (⟨pre⟩, "")
  | _ :: rest => (⟨pre⟩, ⟨rest⟩)

/-- `pat` occurs as a contiguous subsequence of `s`. -/
def containsSeq (pat : List Char) : List Char → Bool
  | [] => pat.isPrefixOf []
  | c :: rest => pat.isPrefixOf (c :: rest) || containsSeq pat rest

/-- Python `sub in s` for strings. -/
def pyContains (s sub : String) : Bool := containsSeq sub.data s.data

/-- Python truthiness of a string (`if s:` — empty string is falsy). -/
def strTruthy (s : String) : Bool := s ≠ ""

/-- Python truthiness of an `Optional[str]` (`None` and `""` are falsy). -/
def optStrTruthy : Option String → Bool
  | none => false
  | some s => strTruthy s

/-! ## Python dict with string keys, as an association list

`config.read_firewall_rules` returns a dict `"ip:port" -> "allow"|"deny"`;
we model it as an association list with first-match lookup and
insert-or-replace assignment. -/

/-- The firewall table of a VM descriptor: `"ip:port" -> "allow"|"deny"`. -/
abbrev RuleMap := List (String × String)

/-- Python `d[k]` lookup (`k in d` is `(dictGet d k).isSome`). -/
def dictGet (m : RuleMap) (k : String) : Option String :=
  (m.find? (fun p => p.1 == k)).map (fun p => p.2)

/-- Python `d[k] = v`: replace the binding if the key exists, else append. -/
def dictInsert (m : RuleMap) (k v : String) : RuleMap :=
  match m with
  | [] => [(k, v)]
  | (k', v') :: rest =>
    if k' == k then (k, v) :: rest else (k', v') :: dictInsert rest k v

theorem dictGet_dictInsert_self (m : RuleMap) (k v : String) :
    dictGet (dictInsert m k v) k = some v := by
  induction m with
  | nil => simp [dictInsert, dictGet]
  | cons p rest ih =>
    obtain ⟨k', v'⟩ := p
    by_cases h : k' = k
    · simp [dictInsert, dictGet, h]
    · simpa [dictInsert, dictGet, h, List.find?] using ih

/-! ## `config.py`: descriptor paths, firewall-rule persistence

`write_vm_config` opens `vm.toml` for writing and dumps the TOML straight
into it; `add_firewall_rule` validates the action, reads the descriptor,
updates the `firewall` table and calls `write_vm_config`.  Filesystem
effects are recorded as an `FsOp` trace; the serialized TOML content is not
modelled (no claim depends on it), only which paths are touched and how. -/

/-- A filesystem operation performed by the config module. -/
inductive FsOp where
  /-- `path.parent.mkdir(parents=True, exist_ok=True)` -/
  | mkdirParents (path : String)
  /-- `open(path, "wb")` -/
  | openWrite (path : String)
  /-- writing the new serialized descriptor into the opened file -/
  | writeFile (path : String)
  /-- `os.rename(src, dst)` (never emitted by this code; present so that
  the atomic-replace property of the claim can be stated) -/
  | rename (src dst : String)
  /-- `open(path, "rb")` followed by `tomllib.load` -/
  | readFile (path : String)
deriving DecidableEq, Repr

/-- An exception raised by the config module. -/
inductive PyErr where
  | valueError (msg : String)
  | fileNotFound (msg : String)
deriving DecidableEq, Repr

/-- The persisted VM descriptor, restricted to the fields the modelled code
reads: the `firewall` table and the assigned `ssh_port` (absent for a
descriptor that never got one). -/
structure VmConfig where
  firewall : RuleMap
  ssh_port : Option Nat
deriving DecidableEq, Repr

/-- `config.vm_dir(name)`, relative to the xray home. -/
def vm_dir (name : String) : String := "vms/" ++ name

/-- `config.vm_config_path(name)`. -/
def vm_config_path (name : String) : String := vm_dir name ++ "/vm.toml"

/-- `config.write_vm_config(name, config)`: the filesystem trace.  The
descriptor file is opened and written directly — there is no temporary
file and no rename. -/
def write_vm_config (name : String) (_cfg : VmConfig) : List FsOp :=
  [FsOp.mkdirParents (vm_dir name),
   FsOp.openWrite (vm_config_path name),
   FsOp.writeFile (vm_config_path name)]

/-- `config.add_firewall_rule(name, ip, port, action)`.  `disk` is the
descriptor on disk (`none` when `vm.toml` does not exist, in which case
`read_vm_config` raises `FileNotFoundError`).  Returns the outcome
(new descriptor or exception) together with the filesystem trace. -/
def add_firewall_rule (name ip : String) (port : Nat) (action : String)
    (disk : Option VmConfig) : Except PyErr VmConfig × List FsOp :=
  if action ∉ (["allow", "deny"] : List String) then
    (Except.error (PyErr.valueError
      ("Action must be 'allow' or 'deny', got: " ++ action)), [])
  else
    match disk with
    | none =>
      (Except.error (PyErr.fileNotFound ("VM '" ++ name ++ "' not found")), [])
    | some cfg =>
      let rule_key := ip ++ ":" ++ toString port
      let cfg' : VmConfig := { cfg with firewall := dictInsert cfg.firewall rule_key action }
      (Except.ok cfg', FsOp.readFile (vm_config_path name) :: write_vm_config name cfg')

/-! ## `firewall.py`: default ruleset and matcher -/

/-- The literal `BUILTIN_DEFAULT_DOMAINS` string from `firewall.py`. -/
def BUILTIN_DEFAULT_DOMAINS : String :=
  "# Default allowed domains for xray firewall\n" ++
  "# Lines starting with # are comments\n" ++
  "# Each line should be a domain suffix to allow (e.g., \"github.com\" allows *.github.com)\n" ++
  "\n" ++
  "# Ubuntu package repositories\n" ++
  "archive.ubuntu.com\n" ++
  "ports.ubuntu.com\n" ++
  "security.ubuntu.com\n" ++
  "ppa.launchpad.net\n" ++
  "ppa.launchpadcontent.net\n" ++
  "\n" ++
  "# Canonical services (NTP, mirrors, etc.)\n" ++
  "canonical.com\n" ++
  "ubuntu.com\n" ++
  "launchpad.net\n" ++
  "\n" ++
  "# Common package sources\n" ++
  "debian.org\n" ++
  "deb.nodesource.com\n" ++
  "dl.google.com\n" ++
  "packages.microsoft.com\n" ++
  "download.docker.com\n" ++
  "\n" ++
  "# Development services\n" ++
  "github.com\n" ++
  "githubusercontent.com\n" ++
  "pypi.org\n" ++
  "files.pythonhosted.org\n" ++
  "npmjs.org\n" ++
  "registry.npmjs.org\n"

/-- `firewall._read_default_domains`, applied to the text of the rules
file: split into lines, strip each, drop blank lines and `#` comments,
lower-case the rest. -/
def read_default_domains (text : String) : List String :=
  (((pySplitChar text '\n').map pyStrip).filter
    (fun line => strTruthy line && !pyStartsWith line "#")).map pyLower

/-- The default ruleset materialized from the built-in list (the contents
of `default-firewall-rules.conf` on first read). -/
def builtin_default_domains : List String :=
  read_default_domains BUILTIN_DEFAULT_DOMAINS

/-- `firewall._matches_default_domain(hostname)`, parametrized by the
default-domain list read from the config file.  Returns the first matched
suffix, or `none`. -/
def _matches_default_domain (default_domains : List String) (hostname : String) :
    Option String :=
  if default_domains.isEmpty then none
  else
    let hostname_lower := pyLower hostname
    default_domains.find? (fun domain =>
      hostname_lower == domain || pyEndsWith hostname_lower ("." ++ domain))

/-! ## `qemu.py`: hypervisor command line -/

/-- The `netdev` argument built by `qemu.build_start_command`'s port-forward
loop: `"user,id=net0"` plus one `hostfwd` clause per configured
`host:guest` forward.  No other clause is ever appended. -/
def build_netdev (ports : List String) : String :=
  ports.foldl (fun netdev port =>
    let host_port := (pySplitChar port ':').getD 0 ""
    let guest_port := (pySplitChar port ':').getD 1 ""
    netdev ++ ",hostfwd=tcp::" ++ host_port ++ "-:" ++ guest_port)
    "user,id=net0"

/-- `qemu.build_start_command`.  Paths and detected binaries are passed in
as strings (`find_binary`/`find_firmware` probe the host filesystem).  Note
the signature: there is no `ssh_port` and no `proxy_port` parameter. -/
def build_start_command (qemu_system firmware claude_dir : String)
    (disk_path efivars_path qmp_sock_path : String)
    (memory cpus : Nat) (display : String) (ports : List String) : List String :=
  [qemu_system,
   "-accel", "hvf",
   "-machine", "virt",
   "-cpu", "host",
   "-m", toString memory,
   "-smp", toString cpus,
   "-drive", "if=pflash,format=raw,readonly=on,file=" ++ firmware,
   "-drive", "if=pflash,format=raw,snapshot=on,file=" ++ efivars_path,
   "-drive", "if=virtio,format=qcow2,file=" ++ disk_path,
   "-device", "qemu-xhci",
   "-device", "usb-kbd",
   "-device", "usb-tablet",
   "-device", "virtio-gpu-pci",
   "-device", "virtio-net-pci,netdev=net0"]
  ++ ["-netdev", build_netdev ports]
  ++ ["-virtfs",
      "local,path=" ++ claude_dir ++ ",mount_tag=claude_creds,security_model=mapped-xattr"]
  ++ ["-qmp", "unix:" ++ qmp_sock_path ++ ",server,nowait"]
  ++ (if display == "none" then ["-nographic"] else ["-display", display])

/-! ## Theorems: default-ruleset matching (C5) -/

/-- C5: a candidate hostname `H` matches a default-ruleset suffix `S`
exactly when `lower(H) == S` or `lower(H)` ends with `"." + S`: every
suffix `_matches_default_domain` returns is in the ruleset and satisfies
that predicate, the matcher hits iff some suffix of the ruleset satisfies
it, and on the built-in ruleset `api.github.com` and `github.com` match
the suffix `github.com` while `evilgithub.com` matches nothing. -/
theorem matches_default_domain_spec :
    (∀ (dds : List String) (H S : String),
      _matches_default_domain dds H = some S →
        S ∈ dds ∧ (pyLower H = S ∨ pyEndsWith (pyLower H) ("." ++ S) = true))
    ∧ (∀ (dds : List String) (H : String),
        (_matches_default_domain dds H).isSome ↔
          ∃ S ∈ dds, pyLower H = S ∨ pyEndsWith (pyLower H) ("." ++ S) = true)
    ∧ _matches_default_domain builtin_default_domains "api.github.com" = some "github.com"
    ∧ _matches_default_domain builtin_default_domains "github.com" = some "github.com"
    ∧ _matches_default_domain builtin_default_domains "evilgithub.com" = none := by
  refine ⟨?_, ?_, by decide, by decide, by decide⟩
  · intro dds H S h
    unfold _matches_default_domain at h
    split at h
    · exact absurd h (by simp)
    · refine ⟨List.mem_of_find?_eq_some h, ?_⟩
      have hp := List.find?_some h
      simpa [Bool.or_eq_true, beq_iff_eq] using hp
  · intro dds H
    unfold _matches_default_domain
    split
    · simp_all [List.isEmpty_iff]
    · rw [List.find?_isSome]
      simp [Bool.or_eq_true, beq_iff_eq]

/-! ## Theorems: descriptor persistence (C3, C10) -/

/-- C3 counterexample: `write_vm_config` does not perform the
write-to-tempfile-and-rename dance the claim describes — its trace contains
no rename onto `vm.toml` at all (shown here for VM `v1` and an empty
descriptor). -/
theorem write_vm_config_no_rename :
    ¬ ∃ tmp, tmp ≠ vm_config_path "v1" ∧
        FsOp.writeFile tmp ∈ write_vm_config "v1" ⟨[], none⟩ ∧
        FsOp.rename tmp (vm_config_path "v1") ∈ write_vm_config "v1" ⟨[], none⟩ := by
  rintro ⟨tmp, -, -, hr⟩
  simp [write_vm_config] at hr

/-- C3 as amended: every mutation of a VM descriptor rewrites the
descriptor by opening `vm.toml` itself for writing and dumping the new
contents directly into it; no temporary file is written and no rename is
performed (neither by `write_vm_config` nor by `add_firewall_rule`), so
the rewrite is in-place rather than atomic. -/
theorem write_vm_config_writes_in_place (name : String) (cfg : VmConfig) :
    FsOp.writeFile (vm_config_path name) ∈ write_vm_config name cfg
    ∧ (∀ p, FsOp.openWrite p ∈ write_vm_config name cfg → p = vm_config_path name)
    ∧ (∀ p, FsOp.writeFile p ∈ write_vm_config name cfg → p = vm_config_path name)
    ∧ (∀ src dst, FsOp.rename src dst ∉ write_vm_config name cfg)
    ∧ (∀ ip port action disk src dst,
        FsOp.rename src dst ∉ (add_firewall_rule name ip port action disk).2) := by
  refine ⟨by simp [write_vm_config], ?_, ?_, ?_, ?_⟩
  · intro p hp; simpa [write_vm_config] using hp
  · intro p hp; simpa [write_vm_config] using hp
  · intro src dst h; simp [write_vm_config] at h
  · intro ip port action disk src dst h
    unfold add_firewall_rule at h
    split at h
    · simp at h
    · match disk with
      | none => simp at h
      | some cfg => simp [write_vm_config] at h

/-- C10: `add_firewall_rule` with an action other than `"allow"`/`"deny"`
raises `ValueError` before touching the descriptor: the result is the
exception and the filesystem trace is empty, so the persisted rule set is
unchanged. -/
theorem add_firewall_rule_invalid_action (name ip : String) (port : Nat)
    (action : String) (disk : Option VmConfig)
    (h : action ∉ (["allow", "deny"] : List String)) :
    add_firewall_rule name ip port action disk =
      (Except.error (PyErr.valueError
        ("Action must be 'allow' or 'deny', got: " ++ action)), []) := by
  simp [add_firewall_rule, h]

/-- C10 witness: the invalid action `"reject"` on a populated descriptor. -/
theorem add_firewall_rule_invalid_action_witness :
    add_firewall_rule "v1" "1.2.3.4" 443 "reject"
        (some ⟨[("5.6.7.8:80", "allow")], some 2222⟩) =
      (Except.error (PyErr.valueError
        ("Action must be 'allow' or 'deny', got: " ++ "reject")), []) :=
  add_firewall_rule_invalid_action "v1" "1.2.3.4" 443 "reject"
    (some ⟨[("5.6.7.8:80", "allow")], some 2222⟩) (by decide)

/-! ## Theorems: hypervisor command line (C2) -/

/-- C2: the netdev built by `qemu.build_start_command` consists of the
configured `host:guest` forwards only — for a VM whose descriptor forwards
`8080:80`, the spawned command line contains no `guestfwd` rule for
`10.0.2.100:1080`, no `hostfwd` rule onto guest port 22, and indeed no
argument mentioning `guestfwd` or `10.0.2.100` at all (`build_start_command`
has no `ssh_port`/`proxy_port` parameters to receive them). -/
theorem build_start_command_lacks_forward_rules :
    build_netdev ["8080:80"] = "user,id=net0,hostfwd=tcp::8080-:80"
    ∧ (∀ arg ∈ build_start_command "qemu-system-aarch64" "edk2-aarch64-code.fd"
          "claude-creds" "disk.qcow2" "efivars.fd" "qmp.sock" 2048 2 "none" ["8080:80"],
        pyContains arg "guestfwd" = false
        ∧ pyContains arg "10.0.2.100" = false
        ∧ pyContains arg "-:22" = false) := by
  exact ⟨by decide, by decide⟩

/-! ## `config.is_verbose`

`proxy.py`, `firewall.py` and `notifier.py` all call `config.is_verbose()`,
but `config.py` in the repository's files does not define it. -/

/-- Modelled from the spec: `config.is_verbose` — referenced by `proxy.py`,
`firewall.py` and `notifier.py` but missing from `src/xray/config.py`.
Per the spec's logging taxonomy (verbose-level vs default-level log lines)
it only selects the logging level, so it is modelled as reading an ambient
boolean verbosity flag, with no effect on any other behaviour. -/
def is_verbose (verbose_flag : Bool) : Bool := verbose_flag

/-! ## `enrichment.py`: guest enricher, DNS cache, recent-connection deque -/

/-- `enrichment.EnrichmentResult`. -/
structure EnrichmentResult where
  domain : Option String := none
  process_name : Option String := none
  process_pid : Option String := none
deriving DecidableEq, Repr

/-- `enrichment.ConnectionRecord` (the `time.time()` timestamp is elided:
nothing modelled depends on it). -/
structure ConnectionRecord where
  dest_ip : String
  dest_port : Nat
  domain : Option String := none
  process_name : Option String := none
  decision : String := ""
deriving DecidableEq, Repr

/-- `enrichment.record_connection` on one VM's deque: append on the right,
`maxlen=20` drops from the left. -/
def record_connection (recent : List ConnectionRecord) (r : ConnectionRecord) :
    List ConnectionRecord :=
  let l := recent ++ [r]
  l.drop (l.length - 20)

/-- `enrichment.get_recent_connections(vm, limit=5)`: `list(records)[-limit:]`. -/
def get_recent_connections (recent : List ConnectionRecord) (limit : Nat := 5) :
    List ConnectionRecord :=
  recent.drop (recent.length - limit)

/-- One iteration of `enrich`'s `key=value` parsing loop over a line of the
guest helper's stdout. -/
def parseEnrichLine (result : EnrichmentResult) (line : String) : EnrichmentResult :=
  let line := pyStrip line
  if pyContains line "=" = false then result
  else
    let key := pyStrip (pyPartition line '=').1
    let value := pyStrip (pyPartition line '=').2
    if key == "domain" && strTruthy value then { result with domain := some value }
    else if key == "process_name" && strTruthy value then { result with process_name := some value }
    else if key == "process_pid" && strTruthy value then { result with process_pid := some value }
    else result

/-- The body of `enrichment.enrich` once the descriptor has been read:
cached-domain prefill, `ssh_port` truthiness guard, the SSH call (whose
outcome `(rc, stdout, stderr)` is supplied — `ssh.run_command` never
raises), output parsing, and the DNS-cache update.  Returns the result
and the new per-VM DNS cache. -/
def enrich_with_config (dns_cache : List (String × String)) (vm_cfg : VmConfig)
    (sshOutcome : Int × String × String) (dest_ip : String) :
    EnrichmentResult × List (String × String) :=
  let result : EnrichmentResult :=
    match dictGet dns_cache dest_ip with
    | some cached => if strTruthy cached then { domain := some cached } else {}
    | none => {}
  if vm_cfg.ssh_port = none ∨ vm_cfg.ssh_port = some 0 then (result, dns_cache)
  else
    let rc := sshOutcome.1
    let stdout := sshOutcome.2.1
    if rc ≠ 0 ∧ pyStrip stdout = "" then (result, dns_cache)
    else
      let result := (pySplitChar (pyStrip stdout) '\n').foldl parseEnrichLine result
      match result.domain with
      | some d =>
        if strTruthy d then (result, dictInsert dns_cache dest_ip d)
        else (result, dns_cache)
      | none => (result, dns_cache)

/-- `enrichment.enrich(vm_name, dest_ip, dest_port)`.  `disk` is the VM
descriptor on disk: `config.read_vm_config` is called *outside* the
function's `try`/`except`, so a missing descriptor propagates as
`FileNotFoundError` instead of degrading to an empty result. -/
def enrich (vm_name : String) (dns_cache : List (String × String))
    (disk : Option VmConfig) (sshOutcome : Int × String × String)
    (dest_ip : String) (_dest_port : Nat) :
    Except PyErr (EnrichmentResult × List (String × String)) :=
  match disk with
  | none => Except.error (PyErr.fileNotFound ("VM '" ++ vm_name ++ "' not found"))
  | some vm_cfg => Except.ok (enrich_with_config dns_cache vm_cfg sshOutcome dest_ip)

/-! ## Theorems: guest enricher (C9) -/

/-- C9 (code bug): `enrich` does degrade gracefully on an SSH failure —
the second conjunct shows a failed SSH call returning a result that is
empty except for the cached domain — but the descriptor is read *outside*
the `try` block, so for a VM whose descriptor is missing or unreadable
`enrich` raises `FileNotFoundError` instead of returning an empty record,
contradicting its own contract ("Empty on any error", never raise). -/
theorem enrich_raises_on_missing_descriptor :
    enrich "ghost" [] none (0, "", "") "1.2.3.4" 443 =
      Except.error (PyErr.fileNotFound "VM 'ghost' not found")
    ∧ enrich "v1" [("1.2.3.4", "example.com")] (some ⟨[], some 2222⟩)
        (-1, "", "ssh: connection refused") "1.2.3.4" 443 =
      Except.ok ({ domain := some "example.com" }, [("1.2.3.4", "example.com")]) :=
  ⟨rfl, rfl⟩

/-! ## `firewall.check_rule` and `vm._check_firewall_rule`

Both decision functions are modelled as state transformers over the
per-VM state (descriptor, DNS cache, recent-connection deque) with an
environment supplying the outcomes of the external capabilities they
consult: the SSH call enrichment makes, the reverse-DNS (PTR) lookup,
the user's answer to the interactive dialog, and — because the firewall
table is re-read from disk after acquiring the notification lock —
a function `interfere` giving the table as other threads or processes
may have rewritten it in the meantime.  Besides the decision and the new
state, each call reports its observable events: how many times the
interactive dialog was shown, which rules were persisted, and which
connection records were appended. -/

/-- The per-VM mutable state the decision functions read and write. -/
structure FwState where
  /-- the descriptor on disk (`vm.toml`): firewall table and ssh port -/
  cfg : VmConfig
  /-- `enrichment._dns_cache[vm]` -/
  dns_cache : List (String × String)
  /-- `enrichment._recent_connections[vm]` -/
  recent : List ConnectionRecord
deriving DecidableEq, Repr

/-- Outcomes of the external capabilities one decision call consults. -/
structure FwEnv where
  /-- contents of `default-firewall-rules.conf` (already line-parsed) -/
  default_domains : List String
  /-- `(rc, stdout, stderr)` of the SSH call made by `enrichment.enrich` -/
  ssh : Int × String × String
  /-- `notifier._get_hostname(dest_ip)` (reverse DNS; `none` on failure) -/
  ptr : Option String
  /-- `notifier.show_firewall_alert(...)`: the user's answer -/
  user_answer : String
  /-- the firewall table as re-read from disk after acquiring the
  notification lock (`id` when nothing modified it concurrently) -/
  interfere : RuleMap → RuleMap
  /-- the ambient verbosity flag behind `config.is_verbose` -/
  verbose : Bool

/-- What one decision call returned, rewrote and observably did. -/
structure CheckResult where
  decision : String
  state : FwState
  /-- number of `notifier.show_firewall_alert` invocations -/
  ask_calls : Nat
  /-- `config.add_firewall_rule` calls, in order, as `(key, action)` -/
  inserts : List (String × String)
  /-- `enrichment.record_connection` calls, in order -/
  records : List ConnectionRecord
deriving DecidableEq, Repr

/-- `firewall.check_rule(vm_name, dest_ip, dest_port)`. -/
def check_rule (env : FwEnv) (st : FwState) (dest_ip : String) (dest_port : Nat) :
    CheckResult :=
  let rule_key := dest_ip ++ ":" ++ toString dest_port
  let _verbose := is_verbose env.verbose
  -- Fast path: check if rule already exists (no lock needed for read)
  match dictGet st.cfg.firewall rule_key with
  | some decision =>
    let r : ConnectionRecord := { dest_ip := dest_ip, dest_port := dest_port, decision := decision }
    { decision := decision
      state := { st with recent := record_connection st.recent r }
      ask_calls := 0, inserts := [], records := [r] }
  | none =>
    -- enrich the connection (the descriptor exists: it was just read)
    let enr := enrich_with_config st.dns_cache st.cfg env.ssh dest_ip
    let info := enr.1
    let st := { st with dns_cache := enr.2 }
    -- `if info.domain:` then `if _matches_default_domain(info.domain):`
    let domain_match : Option String :=
      if optStrTruthy info.domain then
        _matches_default_domain env.default_domains (info.domain.getD "")
      else none
    if optStrTruthy domain_match then
      let r : ConnectionRecord :=
        { dest_ip := dest_ip, dest_port := dest_port, domain := info.domain, decision := "allow" }
      { decision := "allow"
        state := { st with
          cfg := { st.cfg with firewall := dictInsert st.cfg.firewall rule_key "allow" }
          recent := record_connection st.recent r }
        ask_calls := 0, inserts := [(rule_key, "allow")], records := [r] }
    else
      -- fallback: reverse DNS
      let hostname := env.ptr
      let ptr_match : Option String :=
        if optStrTruthy hostname then
          _matches_default_domain env.default_domains (hostname.getD "")
        else none
      if optStrTruthy ptr_match then
        let r : ConnectionRecord :=
          { dest_ip := dest_ip, dest_port := dest_port, domain := hostname, decision := "allow" }
        { decision := "allow"
          state := { st with
            cfg := { st.cfg with firewall := dictInsert st.cfg.firewall rule_key "allow" }
            recent := record_connection st.recent r }
          ask_calls := 0, inserts := [(rule_key, "allow")], records := [r] }
      else
        -- no rule: acquire the notification lock, re-check, then prompt
        let rules2 := env.interfere st.cfg.firewall
        match dictGet rules2 rule_key with
        | some decision =>
          let r : ConnectionRecord := { dest_ip := dest_ip, dest_port := dest_port, decision := decision }
          { decision := decision
            state := { st with
              cfg := { st.cfg with firewall := rules2 }
              recent := record_connection st.recent r }
            ask_calls := 0, inserts := [], records := [r] }
        | none =>
          let _recent := get_recent_connections st.recent
          let decision := env.user_answer
          let r : ConnectionRecord :=
            { dest_ip := dest_ip, dest_port := dest_port, domain := info.domain,
              process_name := info.process_name, decision := decision }
          { decision := decision
            state := { st with
              cfg := { st.cfg with firewall := dictInsert rules2 rule_key decision }
              recent := record_connection st.recent r }
            ask_calls := 1, inserts := [(rule_key, decision)], records := [r] }

/-- `vm._is_default_allowed(dest_ip)`: reverse-DNS-only default matching
(`ptr` is the `notifier._get_hostname` outcome). -/
def _is_default_allowed (default_domains : List String) (ptr : Option String) : Bool :=
  if default_domains.isEmpty then false
  else
    match ptr with
    | none => false
    | some hostname =>
      if strTruthy hostname = false then false
      else
        let hostname_lower := pyLower hostname
        default_domains.any (fun domain =>
          hostname_lower == domain || pyEndsWith hostname_lower ("." ++ domain))

/-- `vm._check_firewall_rule(vm_name, dest_ip, dest_port)`: the older
decision function in `vm.py` — no enrichment, no `record_connection`
bookkeeping, default-allow via reverse DNS only. -/
def _check_firewall_rule (env : FwEnv) (st : FwState) (dest_ip : String) (dest_port : Nat) :
    CheckResult :=
  let rule_key := dest_ip ++ ":" ++ toString dest_port
  match dictGet st.cfg.firewall rule_key with
  | some decision =>
    { decision := decision, state := st, ask_calls := 0, inserts := [], records := [] }
  | none =>
    if _is_default_allowed env.default_domains env.ptr then
      { decision := "allow"
        state := { st with
          cfg := { st.cfg with firewall := dictInsert st.cfg.firewall rule_key "allow" } }
        ask_calls := 0, inserts := [(rule_key, "allow")], records := [] }
    else
      let rules2 := env.interfere st.cfg.firewall
      match dictGet rules2 rule_key with
      | some decision =>
        { decision := decision
          state := { st with cfg := { st.cfg with firewall := rules2 } }
          ask_calls := 0, inserts := [], records := [] }
      | none =>
        let decision := env.user_answer
        { decision := decision
          state := { st with
            cfg := { st.cfg with firewall := dictInsert rules2 rule_key decision } }
          ask_calls := 1, inserts := [(rule_key, decision)], records := [] }

/-- The decision callback `vm._run_proxy_thread` builds and installs in the
SOCKS5 gateway (vm.py:117-121): short-circuit `"allow"` in allow-all mode,
otherwise `vm._check_firewall_rule`. -/
def vm_proxy_check_rule (allow_all : Bool) (env : FwEnv) (st : FwState)
    (dest_ip : String) (dest_port : Nat) : CheckResult :=
  if allow_all then
    { decision := "allow", state := st, ask_calls := 0, inserts := [], records := [] }
  else _check_firewall_rule env st dest_ip dest_port

/-! ## Theorems: the decision callback `start` installs (C4) -/

/-- Environment for the C4 scenario: enrichment resolves the destination
to `api.github.com` (which the default ruleset allows), reverse DNS fails,
the user would answer `"deny"`, and nothing modifies the descriptor
concurrently. -/
def c4Env : FwEnv :=
  { default_domains := ["github.com"]
    ssh := (0, "domain=api.github.com\n", "")
    ptr := none
    user_answer := "deny"
    interfere := id
    verbose := false }

/-- State for the C4 scenario: empty firewall table, empty caches. -/
def c4St : FwState :=
  { cfg := { firewall := [], ssh_port := some 2222 }, dns_cache := [], recent := [] }

/-- C4 counterexample: the decision callback `start` installs when
`allow_all` is false (`vm._check_firewall_rule`) is not extensionally equal
to `firewall.check_rule`: on a destination whose enriched domain matches
the default ruleset while reverse DNS fails, `check_rule` auto-allows and
persists `allow`, while the installed callback prompts the user, returns
their `"deny"`, persists `deny`, and records no connection. -/
theorem start_callback_differs_from_check_rule :
    (vm_proxy_check_rule false c4Env c4St "140.82.121.4" 443).decision = "deny"
    ∧ (check_rule c4Env c4St "140.82.121.4" 443).decision = "allow"
    ∧ (vm_proxy_check_rule false c4Env c4St "140.82.121.4" 443).inserts
        = [("140.82.121.4:443", "deny")]
    ∧ (check_rule c4Env c4St "140.82.121.4" 443).inserts
        = [("140.82.121.4:443", "allow")]
    ∧ (vm_proxy_check_rule false c4Env c4St "140.82.121.4" 443).ask_calls = 1
    ∧ (check_rule c4Env c4St "140.82.121.4" 443).ask_calls = 0
    ∧ (vm_proxy_check_rule false c4Env c4St "140.82.121.4" 443).records = []
    ∧ (check_rule c4Env c4St "140.82.121.4" 443).records ≠ [] :=
  ⟨rfl, rfl, rfl, rfl, rfl, rfl, rfl, by decide⟩

/-- C4 as amended: when `start` is invoked with `allow_all` false, the
decision callback it installs in the gateway is `vm._check_firewall_rule`
(not `firewall.check_rule`); the two functions agree — same decision, no
prompt, no insertion — whenever a persisted rule exists for the `(ip,
port)` key at the fast-path lookup, but differ in general: the installed
callback performs no enrichment-based default allow and no recent-decision
recording. -/
theorem start_callback_agrees_on_persisted_rules (env : FwEnv) (st : FwState)
    (ip : String) (port : Nat) (d : String)
    (h : dictGet st.cfg.firewall (ip ++ ":" ++ toString port) = some d) :
    vm_proxy_check_rule false env st ip port = _check_firewall_rule env st ip port
    ∧ (vm_proxy_check_rule false env st ip port).decision = d
    ∧ (check_rule env st ip port).decision = d
    ∧ (vm_proxy_check_rule false env st ip port).ask_calls = 0
    ∧ (check_rule env st ip port).ask_calls = 0
    ∧ (vm_proxy_check_rule false env st ip port).inserts = []
    ∧ (check_rule env st ip port).inserts = [] := by
  simp [vm_proxy_check_rule, _check_firewall_rule, check_rule, h]

/-- C4 witness: a persisted `deny` rule is returned identically by the
installed callback and by `check_rule`. -/
theorem start_callback_agrees_witness :
    vm_proxy_check_rule false c4Env
        { cfg := { firewall := [("1.2.3.4:443", "deny")], ssh_port := some 2222 }
          dns_cache := [], recent := [] } "1.2.3.4" 443
      = _check_firewall_rule c4Env
        { cfg := { firewall := [("1.2.3.4:443", "deny")], ssh_port := some 2222 }
          dns_cache := [], recent := [] } "1.2.3.4" 443
    ∧ (vm_proxy_check_rule false c4Env
        { cfg := { firewall := [("1.2.3.4:443", "deny")], ssh_port := some 2222 }
          dns_cache := [], recent := [] } "1.2.3.4" 443).decision = "deny"
    ∧ (check_rule c4Env
        { cfg := { firewall := [("1.2.3.4:443", "deny")], ssh_port := some 2222 }
          dns_cache := [], recent := [] } "1.2.3.4" 443).decision = "deny"
    ∧ (vm_proxy_check_rule false c4Env
        { cfg := { firewall := [("1.2.3.4:443", "deny")], ssh_port := some 2222 }
          dns_cache := [], recent := [] } "1.2.3.4" 443).ask_calls = 0
    ∧ (check_rule c4Env
        { cfg := { firewall := [("1.2.3.4:443", "deny")], ssh_port := some 2222 }
          dns_cache := [], recent := [] } "1.2.3.4" 443).ask_calls = 0
    ∧ (vm_proxy_check_rule false c4Env
        { cfg := { firewall := [("1.2.3.4:443", "deny")], ssh_port := some 2222 }
          dns_cache := [], recent := [] } "1.2.3.4" 443).inserts = []
    ∧ (check_rule c4Env
        { cfg := { firewall := [("1.2.3.4:443", "deny")], ssh_port := some 2222 }
          dns_cache := [], recent := [] } "1.2.3.4" 443).inserts = [] :=
  start_callback_agrees_on_persisted_rules c4Env
    { cfg := { firewall := [("1.2.3.4:443", "deny")], ssh_port := some 2222 }
      dns_cache := [], recent := [] } "1.2.3.4" 443 "deny" (by decide)

/-! ## Theorems: the decision engine prompts at most once (C6) -/

/-- C6: `check_rule` shows the interactive dialog at most once per call;
a persisted rule at the fast-path lookup is returned with no prompt and no
insertion; a rule present in the re-read table is never prompted over;
and a prompt happens only when both the fast-path lookup and the re-check
under the lock miss, in which case the user's answer is persisted so that
any later call for the same key takes the fast path — same decision, no
prompt. -/
theorem check_rule_prompts_at_most_once (env : FwEnv) (st : FwState)
    (ip : String) (port : Nat) :
    (check_rule env st ip port).ask_calls ≤ 1
    ∧ (∀ d, dictGet st.cfg.firewall (ip ++ ":" ++ toString port) = some d →
        (check_rule env st ip port).decision = d
        ∧ (check_rule env st ip port).ask_calls = 0
        ∧ (check_rule env st ip port).inserts = [])
    ∧ (∀ d, dictGet st.cfg.firewall (ip ++ ":" ++ toString port) = none →
        dictGet (env.interfere st.cfg.firewall) (ip ++ ":" ++ toString port) = some d →
        (check_rule env st ip port).ask_calls = 0
        ∧ ((check_rule env st ip port).decision = d
           ∨ ((check_rule env st ip port).decision = "allow"
              ∧ (check_rule env st ip port).inserts
                  = [(ip ++ ":" ++ toString port, "allow")])))
    ∧ ((check_rule env st ip port).ask_calls = 1 →
        dictGet st.cfg.firewall (ip ++ ":" ++ toString port) = none
        ∧ dictGet (env.interfere st.cfg.firewall) (ip ++ ":" ++ toString port) = none
        ∧ (check_rule env st ip port).decision = env.user_answer
        ∧ dictGet (check_rule env st ip port).state.cfg.firewall
            (ip ++ ":" ++ toString port) = some (check_rule env st ip port).decision
        ∧ ∀ env₂, (check_rule env₂ (check_rule env st ip port).state ip port).decision
              = (check_rule env st ip port).decision
            ∧ (check_rule env₂ (check_rule env st ip port).state ip port).ask_calls = 0) := by
  have fast : ∀ (env' : FwEnv) (st' : FwState) (d : String),
      dictGet st'.cfg.firewall (ip ++ ":" ++ toString port) = some d →
      (check_rule env' st' ip port).decision = d
      ∧ (check_rule env' st' ip port).ask_calls = 0
      ∧ (check_rule env' st' ip port).inserts = [] := by
    intro env' st' d h
    simp [check_rule, h]
  have prompt : (check_rule env st ip port).ask_calls = 1 →
      dictGet st.cfg.firewall (ip ++ ":" ++ toString port) = none
      ∧ dictGet (env.interfere st.cfg.firewall) (ip ++ ":" ++ toString port) = none
      ∧ (check_rule env st ip port).decision = env.user_answer
      ∧ dictGet (check_rule env st ip port).state.cfg.firewall
          (ip ++ ":" ++ toString port) = some (check_rule env st ip port).decision := by
    intro hask
    simp only [check_rule] at hask ⊢
    repeat' split at hask
    all_goals simp_all [dictGet_dictInsert_self]
  refine ⟨?_, fun d h => fast env st d h, ?_, fun hask => ?_⟩
  · simp only [check_rule]
    repeat' split
    all_goals simp
  · intro d h1 h2
    simp only [check_rule, h1]
    repeat' split
    all_goals simp_all
  · obtain ⟨h1, h2, h3, h4⟩ := prompt hask
    exact ⟨h1, h2, h3, h4, fun env₂ =>
      ⟨(fast env₂ _ _ h4).1, (fast env₂ _ _ h4).2.1⟩⟩

/-- Environment for the C6 witness: enrichment's SSH call fails, reverse
DNS fails, nobody modifies the table concurrently, the user answers
`"deny"`. -/
def c6Env : FwEnv :=
  { default_domains := builtin_default_domains
    ssh := (-1, "", "ssh: connection timed out")
    ptr := none
    user_answer := "deny"
    interfere := id
    verbose := false }

/-- State for the C6 witness: no persisted rules, empty caches. -/
def c6St : FwState :=
  { cfg := { firewall := [], ssh_port := some 2222 }, dns_cache := [], recent := [] }

/-- C6 witness: a destination with no rule anywhere prompts exactly once,
persists the answer, and the key then resolves on the fast path. -/
theorem check_rule_prompts_witness :
    dictGet c6St.cfg.firewall ("8.8.8.8" ++ ":" ++ toString 53) = none
    ∧ dictGet (c6Env.interfere c6St.cfg.firewall) ("8.8.8.8" ++ ":" ++ toString 53) = none
    ∧ (check_rule c6Env c6St "8.8.8.8" 53).decision = c6Env.user_answer
    ∧ dictGet (check_rule c6Env c6St "8.8.8.8" 53).state.cfg.firewall
        ("8.8.8.8" ++ ":" ++ toString 53) = some (check_rule c6Env c6St "8.8.8.8" 53).decision := by
  have h := (check_rule_prompts_at_most_once c6Env c6St "8.8.8.8" 53).2.2.2 (by decide)
  exact ⟨h.1, h.2.1, h.2.2.1, h.2.2.2.1⟩

/-! ## `proxy.py`: the gateway supervisor loop (`proxy._run_proxy_thread`)

The supervisor loop `for attempt in range(MAX_RESTARTS + 1)` with
`MAX_RESTARTS = 5` is modelled as a fuel recursion (`fuel = 6 - attempt`),
with an environment giving, per attempt, whether the intentional-stop flag
is observed at the top of the loop and how the attempt ends; the port the
OS reports on the first successful bind is `firstPort`.  The emitted event
trace records sleeps (with the `restart_delay` value, which starts at 1 s
and doubles up to the 10 s cap), bind attempts (with the reused port, or
`none` for a fresh `run_proxy_for_vm` bind), successful binds, port-file
writes, the intentional return, and the final FATAL log. -/

/-- How one attempt of the supervisor loop ends. -/
inductive AttemptResult where
  /-- `server.start()` raised before a port was bound -/
  | startFailed
  /-- the server bound and ran, then the loop crashed or stopped
  unexpectedly (restart required) -/
  | crashed
  /-- `loop.run_forever()` returned with the intentional-stop flag set -/
  | intentionalStop
deriving DecidableEq, Repr

/-- Per-attempt oracle for the supervisor loop. -/
structure ProxyEnv where
  /-- `vm_name in _proxy_intentional_stop` observed at the top of attempt `k` -/
  intentionalAtTop : Nat → Bool
  /-- how attempt `k` ends, when it runs -/
  outcome : Nat → AttemptResult
  /-- the port reported by the OS on the first successful bind -/
  firstPort : Nat

/-- Observable events of the supervisor loop. -/
inductive ProxyEv where
  | sleep (secs : Nat)
  | bind (reusedPort : Option Nat)
  | bound (port : Nat)
  | writePortFile (port : Nat)
  | ret
  | fatal
deriving DecidableEq, Repr

/-- The loop body of `proxy._run_proxy_thread`, as a fuel recursion:
`_run_proxy_thread_go env fuel attempt delay bound_port` runs attempts
`attempt, attempt+1, …` while fuel lasts; exhausted fuel is the loop
completing all its iterations, after which the FATAL line is printed. -/
def _run_proxy_thread_go (env : ProxyEnv) : Nat → Nat → Nat → Option Nat → List ProxyEv
  | 0, _, _, _ => [ProxyEv.fatal]
  | fuel + 1, attempt, delay, bound_port =>
    if env.intentionalAtTop attempt then []
    else
      let pre : List ProxyEv := if attempt > 0 then [ProxyEv.sleep delay] else []
      let delay' := if attempt > 0 then min (delay * 2) 10 else delay
      let port := match bound_port with | some p => p | none => env.firstPort
      match env.outcome attempt with
      | AttemptResult.startFailed =>
        pre ++ [ProxyEv.bind bound_port]
          ++ _run_proxy_thread_go env fuel (attempt + 1) delay' bound_port
      | AttemptResult.crashed =>
        pre ++ [ProxyEv.bind bound_port, ProxyEv.bound port, ProxyEv.writePortFile port]
          ++ _run_proxy_thread_go env fuel (attempt + 1) delay' (some port)
      | AttemptResult.intentionalStop =>
        pre ++ [ProxyEv.bind bound_port, ProxyEv.bound port, ProxyEv.writePortFile port,
          ProxyEv.ret]

/-- `proxy._run_proxy_thread`: 6 attempts (1 initial + `MAX_RESTARTS = 5`
restarts), starting with `restart_delay = 1.0` and no bound port. -/
def _run_proxy_thread (env : ProxyEnv) : List ProxyEv :=
  _run_proxy_thread_go env 6 0 1 none

/-- The sleeps of a supervisor trace, in order. -/
def proxySleeps (tr : List ProxyEv) : List Nat :=
  tr.filterMap (fun e => match e with | ProxyEv.sleep s => some s | _ => none)

/-- How many bind attempts a supervisor trace contains. -/
def proxyBindAttempts (tr : List ProxyEv) : Nat :=
  (tr.filter (fun e => match e with | ProxyEv.bind _ => true | _ => false)).length

/-- The delays the loop would sleep from a given attempt on: the current
delay, then doubling capped at 10. -/
def delaySeq : Nat → Nat → List Nat
  | 0, _ => []
  | fuel + 1, d => d :: delaySeq fuel (min (d * 2) 10)

theorem go_sleeps (env : ProxyEnv) :
    ∀ (fuel attempt delay : Nat) (bp : Option Nat), 0 < attempt →
    (proxySleeps (_run_proxy_thread_go env fuel attempt delay bp)).IsPrefix
      (delaySeq fuel delay)
  | 0, attempt, delay, bp, _ => by simp [_run_proxy_thread_go, proxySleeps]
  | fuel + 1, attempt, delay, bp, h => by
    simp only [_run_proxy_thread_go, h, if_pos, Nat.pos_iff_ne_zero]
    split
    · simp [proxySleeps]
    · split
      · simpa [proxySleeps, delaySeq, if_pos h, List.cons_prefix_cons]
          using go_sleeps env fuel (attempt + 1) (min (delay * 2) 10) bp (Nat.succ_pos attempt)
      · simpa [proxySleeps, delaySeq, if_pos h, List.cons_prefix_cons]
          using go_sleeps env fuel (attempt + 1) (min (delay * 2) 10) _ (Nat.succ_pos attempt)
      · simp [proxySleeps, delaySeq, if_pos h]

theorem go_bind_le (env : ProxyEnv) :
    ∀ (fuel attempt delay : Nat) (bp : Option Nat),
    proxyBindAttempts (_run_proxy_thread_go env fuel attempt delay bp) ≤ fuel
  | 0, attempt, delay, bp => by simp [_run_proxy_thread_go, proxyBindAttempts]
  | fuel + 1, attempt, delay, bp => by
    simp only [_run_proxy_thread_go]
    split
    · simp [proxyBindAttempts]
    · split <;>
        simp [proxyBindAttempts, List.filter_append] <;>
        split <;>
        simpa [proxyBindAttempts] using go_bind_le env fuel (attempt + 1) _ _

theorem go_fatal (env : ProxyEnv) :
    ∀ (fuel attempt delay : Nat) (bp : Option Nat),
    ProxyEv.fatal ∈ _run_proxy_thread_go env fuel attempt delay bp →
    proxyBindAttempts (_run_proxy_thread_go env fuel attempt delay bp) = fuel
  | 0, attempt, delay, bp => by simp [_run_proxy_thread_go, proxyBindAttempts]
  | fuel + 1, attempt, delay, bp => by
    by_cases ha : attempt > 0 <;>
    · simp only [_run_proxy_thread_go, ha, if_pos, if_neg, reduceIte]
      split
      · simp
      · split
        · intro hmem
          have hm := go_fatal env fuel (attempt + 1) _ bp (by simpa [ha] using hmem)
          simp [ha, proxyBindAttempts, List.filter_append] at *
          omega
        · intro hmem
          have hm := go_fatal env fuel (attempt + 1) _ _ (by simpa [ha] using hmem)
          simp [ha, proxyBindAttempts, List.filter_append] at *
          omega
        · intro hmem
          simp [ha] at hmem

theorem go_events (env : ProxyEnv) :
    ∀ (fuel attempt delay : Nat) (bp : Option Nat),
    (bp = none ∨ bp = some env.firstPort) →
    ∀ e ∈ _run_proxy_thread_go env fuel attempt delay bp,
      e = ProxyEv.fatal ∨ e = ProxyEv.ret ∨ (∃ s, e = ProxyEv.sleep s)
      ∨ e = ProxyEv.bind none ∨ e = ProxyEv.bind (some env.firstPort)
      ∨ e = ProxyEv.bound env.firstPort ∨ e = ProxyEv.writePortFile env.firstPort
  | 0, _, _, _, _ => by simp [_run_proxy_thread_go]
  | fuel + 1, attempt, delay, bp, hbp => by
    intro e he
    rcases hbp with hb | hb <;> subst hb <;> revert he <;>
      by_cases ha : attempt > 0 <;>
        simp only [_run_proxy_thread_go, ha, reduceIte] <;>
        (split
         · simp
         · split <;> intro he <;> simp [ha] at he <;> casesm* _ ∨ _ <;>
             first
               | tauto
               | exact go_events env fuel (attempt + 1) _ _ (Or.inl rfl) e (by assumption)
               | exact go_events env fuel (attempt + 1) _ _ (Or.inr rfl) e (by assumption))

theorem go_intentional (env : ProxyEnv) :
    ∀ (fuel attempt delay : Nat) (bp : Option Nat) (k : Nat),
    attempt ≤ k → env.intentionalAtTop k = true →
    proxyBindAttempts (_run_proxy_thread_go env fuel attempt delay bp) ≤ k - attempt
  | 0, attempt, delay, bp, k => by
    intro hak hk
    simp [_run_proxy_thread_go, proxyBindAttempts]
  | fuel + 1, attempt, delay, bp, k => by
    intro hak hk
    have hstep : ∀ (d' : Nat) (bp' : Option Nat),
        env.intentionalAtTop attempt = false →
        proxyBindAttempts (_run_proxy_thread_go env fuel (attempt + 1) d' bp')
          + 1 ≤ k - attempt := by
      intro d' bp' hif
      have hlt : attempt < k := by
        rcases Nat.eq_or_lt_of_le hak with he | hl
        · rw [he, hk] at hif; cases hif
        · exact hl
      have := go_intentional env fuel (attempt + 1) d' bp' k hlt hk
      omega
    by_cases ha : attempt > 0 <;>
      simp only [_run_proxy_thread_go, ha, reduceIte] <;>
      (split
       · simp [proxyBindAttempts]
       · rename_i hif
         have hif' : env.intentionalAtTop attempt = false := by simpa using hif
         split <;>
           simp only [proxyBindAttempts, List.filter_append, List.length_append] at hstep ⊢ <;>
           first
             | (have h := hstep (min (delay * 2) 10) bp hif'; simp [ha]; omega)
             | (have h := hstep (min (delay * 2) 10)
                 (some (match bp with | some p => p | none => env.firstPort)) hif'
                simp [ha]; omega)
             | (have h := hstep delay bp hif'; simp [ha]; omega)
             | (have h := hstep delay
                 (some (match bp with | some p => p | none => env.firstPort)) hif'
                simp [ha]; omega))

theorem go_ret_last (env : ProxyEnv) :
    ∀ (fuel attempt delay : Nat) (bp : Option Nat),
    ProxyEv.ret ∈ _run_proxy_thread_go env fuel attempt delay bp →
    (_run_proxy_thread_go env fuel attempt delay bp).getLast? = some ProxyEv.ret
  | 0, attempt, delay, bp => by simp [_run_proxy_thread_go]
  | fuel + 1, attempt, delay, bp => by
    by_cases ha : attempt > 0 <;>
      simp only [_run_proxy_thread_go, ha, reduceIte] <;>
      (split
       · simp
       · split <;> intro hmem
         · simp [ha] at hmem
           rw [List.getLast?_append_of_ne_nil _ (List.ne_nil_of_mem hmem)]
           exact go_ret_last env fuel (attempt + 1) _ _ hmem
         · simp [ha] at hmem
           rw [List.getLast?_append_of_ne_nil _ (List.ne_nil_of_mem hmem)]
           exact go_ret_last env fuel (attempt + 1) _ _ hmem
         · simp)

/-! ## Theorems: gateway supervision (C8) -/

/-- C8: the supervisor loop sleeps `1, 2, 4, 8, 10` seconds (capped at
10 s) between restarts; it makes at most 6 bind attempts (1 initial + 5
restarts) and logs FATAL only after all 6 failed; every successful bind
and every rebind reuses the port reported on the first successful bind;
when the intentional-stop flag is observed at the top of attempt `k` the
loop has made at most `k` bind attempts (so a flag set before the server
closed yields no restart); and an intentional stop ends the trace — no
restart and no FATAL after it. -/
theorem proxy_supervisor_spec (env : ProxyEnv) :
    List.IsPrefix (proxySleeps (_run_proxy_thread env)) [1, 2, 4, 8, 10]
    ∧ proxyBindAttempts (_run_proxy_thread env) ≤ 6
    ∧ (ProxyEv.fatal ∈ _run_proxy_thread env →
        proxyBindAttempts (_run_proxy_thread env) = 6)
    ∧ (∀ q, ProxyEv.bound q ∈ _run_proxy_thread env → q = env.firstPort)
    ∧ (∀ q, ProxyEv.bind (some q) ∈ _run_proxy_thread env → q = env.firstPort)
    ∧ (∀ k, env.intentionalAtTop k = true →
        proxyBindAttempts (_run_proxy_thread env) ≤ k)
    ∧ (ProxyEv.ret ∈ _run_proxy_thread env →
        (_run_proxy_thread env).getLast? = some ProxyEv.ret) := by
  refine ⟨?_, go_bind_le env 6 0 1 none, go_fatal env 6 0 1 none, ?_, ?_,
    fun k hk => by simpa using go_intentional env 6 0 1 none k (Nat.zero_le k) hk,
    go_ret_last env 6 0 1 none⟩
  · have key : ∀ (bp' : Option Nat),
        List.IsPrefix (proxySleeps (_run_proxy_thread_go env 5 1 1 bp')) (delaySeq 5 1) :=
      fun bp' => go_sleeps env 5 1 1 bp' (by omega)
    have hd : delaySeq 5 1 = [1, 2, 4, 8, 10] := rfl
    have hstep : _run_proxy_thread_go env (5 + 1) 0 1 none =
        if env.intentionalAtTop 0 then [] else
        match env.outcome 0 with
        | AttemptResult.startFailed =>
          [ProxyEv.bind none] ++ _run_proxy_thread_go env 5 1 1 none
        | AttemptResult.crashed =>
          [ProxyEv.bind none, ProxyEv.bound env.firstPort,
            ProxyEv.writePortFile env.firstPort]
            ++ _run_proxy_thread_go env 5 1 1 (some env.firstPort)
        | AttemptResult.intentionalStop =>
          [ProxyEv.bind none, ProxyEv.bound env.firstPort,
            ProxyEv.writePortFile env.firstPort, ProxyEv.ret] := rfl
    show List.IsPrefix (proxySleeps (_run_proxy_thread_go env (5 + 1) 0 1 none)) _
    rw [hstep]
    split
    · simp [proxySleeps]
    · split
      · simpa [proxySleeps, hd] using key none
      · simpa [proxySleeps, hd] using key (some env.firstPort)
      · simp [proxySleeps]
  · intro q hq
    rcases go_events env 6 0 1 none (Or.inl rfl) _ hq with h | h | ⟨s, h⟩ | h | h | h | h <;>
      simp_all
  · intro q hq
    rcases go_events env 6 0 1 none (Or.inl rfl) _ hq with h | h | ⟨s, h⟩ | h | h | h | h <;>
      simp_all

/-- Environment for the C8 witness: every attempt binds and then crashes,
the intentional-stop flag is never set. -/
def c8Env : ProxyEnv :=
  { intentionalAtTop := fun _ => false
    outcome := fun _ => AttemptResult.crashed
    firstPort := 40000 }

/-- C8 witness: under repeated crashes the loop restarts 5 times with
backoff delays `1, 2, 4, 8, 10` and gives up with FATAL after attempt 6. -/
theorem proxy_supervisor_witness :
    proxyBindAttempts (_run_proxy_thread c8Env) = 6
    ∧ proxySleeps (_run_proxy_thread c8Env) = [1, 2, 4, 8, 10] :=
  ⟨(proxy_supervisor_spec c8Env).2.2.1 (by decide), by decide⟩

/-! ## `proxy.SOCKS5Server._handle_client`: the per-connection session

One SOCKS5 session is modelled as a pure function of the client's byte
stream (a `List Nat` of bytes), of the decision callback, and of whether
dialing the destination succeeds.  It emits the ordered trace of the
session's observable operations: bytes written to the client, the dial of
the destination, entering the relay, and the socket closes (including the
ones performed by the `finally` block).  `readexactly` hitting the end of
the stream is `asyncio.IncompleteReadError`, which the handler swallows
before the `finally` block closes the sockets. -/

/-- An observable operation of one SOCKS5 session. -/
inductive SockEv where
  | write (bs : List Nat)
  | dial (host : String) (port : Nat)
  | relay
  | closeClient
  | closeDest
deriving DecidableEq, Repr

/-- `b"\x05\x00"`: no authentication required. -/
def methodResponse : List Nat := [5, 0]

/-- Reply `0x00` (succeeded), BND fields `0.0.0.0:0`. -/
def replySuccess : List Nat := [5, 0, 0, 1, 0, 0, 0, 0, 0, 0]

/-- Reply `0x02` (connection not allowed by ruleset). -/
def replyNotAllowed : List Nat := [5, 2, 0, 1, 0, 0, 0, 0, 0, 0]

/-- Reply `0x05` (connection refused). -/
def replyRefused : List Nat := [5, 5, 0, 1, 0, 0, 0, 0, 0, 0]

/-- Reply `0x07` (command not supported). -/
def replyCmdUnsupported : List Nat := [5, 7, 0, 1, 0, 0, 0, 0, 0, 0]

/-- Reply `0x08` (address type not supported). -/
def replyAtypUnsupported : List Nat := [5, 8, 0, 1, 0, 0, 0, 0, 0, 0]

/-- `reader.readexactly(n)`: the first `n` bytes and the rest, or `none`
(`IncompleteReadError`) when fewer than `n` bytes remain. -/
def readExactly (n : Nat) (input : List Nat) : Option (List Nat × List Nat) :=
  if n ≤ input.length then some (input.take n, input.drop n) else none

/-- `".".join(str(b) for b in addr_bytes)`. -/
def ipv4String (bs : List Nat) : String :=
  String.intercalate "." (bs.map (fun b => toString b))

/-- `domain.decode("utf-8")`, for the ASCII hostnames this deployment
sends. -/
def domainString (bs : List Nat) : String := ⟨bs.map Char.ofNat⟩

/-- Parsing of the destination address for `atyp` 1 (IPv4: four bytes) or
3 (domain: length byte then that many bytes); `none` is an incomplete
read. -/
def parseDest (atyp : Nat) (r : List Nat) : Option (String × List Nat) :=
  if atyp = 1 then
    match readExactly 4 r with
    | none => none
    | some (addr, r') => some (ipv4String addr, r')
  else
    match readExactly 1 r with
    | none => none
    | some (dlen, r') =>
      match readExactly (dlen.headD 0) r' with
      | none => none
      | some (dom, r'') => some (domainString dom, r'')

/-- The `try` body of `_handle_client`: the event trace it emits and
whether a destination connection was opened (for the `finally` block). -/
def _handle_client_body (check_rule : String → Nat → Option String)
    (dial_ok : String → Nat → Bool) (input : List Nat) : List SockEv × Bool :=
  match readExactly 1 input with
  | none => ([], false)
  | some (version, r0) =>
    if version ≠ [5] then ([SockEv.closeClient], false)
    else
      match readExactly 1 r0 with
      | none => ([], false)
      | some (nmethods, r1) =>
        match readExactly (nmethods.headD 0) r1 with
        | none => ([], false)
        | some (_, r2) =>
          -- respond: no authentication required
          match readExactly 4 r2 with
          | none => ([SockEv.write methodResponse], false)
          | some (hdr, r3) =>
            match hdr with
            | [_, cmd, _, atyp] =>
              if cmd ≠ 1 then
                ([SockEv.write methodResponse, SockEv.write replyCmdUnsupported,
                  SockEv.closeClient], false)
              else if atyp ≠ 1 ∧ atyp ≠ 3 then
                ([SockEv.write methodResponse, SockEv.write replyAtypUnsupported,
                  SockEv.closeClient], false)
              else
                match parseDest atyp r3 with
                | none => ([SockEv.write methodResponse], false)
                | some (dest_ip, r4) =>
                  match readExactly 2 r4 with
                  | none => ([SockEv.write methodResponse], false)
                  | some (pb, r5) =>
                    let dest_port := pb.headD 0 * 256 + (pb.drop 1).headD 0
                    let decision := check_rule dest_ip dest_port
                    if decision = some "deny" then
                      ([SockEv.write methodResponse, SockEv.write replyNotAllowed,
                        SockEv.closeClient], false)
                    else if decision = some "allow" then
                      if dial_ok dest_ip dest_port then
                        ([SockEv.write methodResponse, SockEv.dial dest_ip dest_port,
                          SockEv.write replySuccess, SockEv.relay], true)
                      else
                        ([SockEv.write methodResponse, SockEv.dial dest_ip dest_port,
                          SockEv.write replyRefused, SockEv.closeClient], false)
                    else
                      -- decision is None or unknown: deny by default
                      ([SockEv.write methodResponse, SockEv.write replyNotAllowed,
                        SockEv.closeClient], false)
            | _ => ([SockEv.write methodResponse], false)

/-- `_handle_client`: the `try` body followed by the `finally` block,
which closes the destination connection if one was opened and then the
client connection. -/
def _handle_client (check_rule : String → Nat → Option String)
    (dial_ok : String → Nat → Bool) (input : List Nat) : List SockEv :=
  let body := _handle_client_body check_rule dial_ok input
  body.1 ++ (if body.2 then [SockEv.closeDest] else []) ++ [SockEv.closeClient]

/-- The wire form of a well-formed SOCKS5 CONNECT session prefix:
greeting (version 5, method list), request header `5 1 0 atyp`, address
bytes, big-endian port, then whatever the client sends next. -/
def connect_request (methods : List Nat) (atyp : Nat) (addr : List Nat)
    (port : Nat) (tail : List Nat) : List Nat :=
  5 :: methods.length :: (methods
    ++ (5 :: 1 :: 0 :: atyp :: (addr ++ (port / 256 :: port % 256 :: tail))))

/-- The destination string a well-formed address block denotes: for
`atyp = 1` four IPv4 octet bytes, for `atyp = 3` a length byte followed by
that many domain bytes. -/
def destOf (atyp : Nat) (addr : List Nat) : Option String :=
  if atyp = 1 then
    if addr.length = 4 then some (ipv4String addr) else none
  else if atyp = 3 then
    match addr with
    | [] => none
    | n :: rest => if rest.length = n then some (domainString rest) else none
  else none

theorem readExactly_len (xs ys : List Nat) :
    readExactly xs.length (xs ++ ys) = some (xs, ys) := by
  simp [readExactly, List.take_left, List.drop_left]

theorem readExactly_one (b : Nat) (rest : List Nat) :
    readExactly 1 (b :: rest) = some ([b], rest) := by
  simpa using readExactly_len [b] rest

theorem readExactly_four (a b c d : Nat) (rest : List Nat) :
    readExactly 4 (a :: b :: c :: d :: rest) = some ([a, b, c, d], rest) := by
  simpa using readExactly_len [a, b, c, d] rest

theorem readExactly_two (a b : Nat) (rest : List Nat) :
    readExactly 2 (a :: b :: rest) = some ([a, b], rest) := by
  simpa using readExactly_len [a, b] rest

/-! ## Theorems: deny closes without dialing (C1) -/

/-- C1: for every SOCKS5 CONNECT session (any method list, IPv4 or domain
address type, any port, any trailing bytes) whose decision callback
returns `"deny"`, the gateway writes the method response and then the
SOCKS reply with code `0x02` (connection not allowed) and closes the
connection; the session's trace contains no dial of any destination. -/
theorem socks_deny_closes_without_dial (cr : String → Nat → Option String)
    (dial_ok : String → Nat → Bool) (methods addr tail : List Nat)
    (atyp port : Nat) (dest : String)
    (hdest : destOf atyp addr = some dest)
    (hdeny : cr dest port = some "deny") :
    _handle_client cr dial_ok (connect_request methods atyp addr port tail) =
      [SockEv.write methodResponse, SockEv.write replyNotAllowed,
       SockEv.closeClient, SockEv.closeClient]
    ∧ ∀ h p, SockEv.dial h p ∉
        _handle_client cr dial_ok (connect_request methods atyp addr port tail) := by
  have hp : port / 256 * 256 + port % 256 = port := by
    rw [Nat.mul_comm]; exact Nat.div_add_mod port 256
  have hmain : _handle_client cr dial_ok (connect_request methods atyp addr port tail) =
      [SockEv.write methodResponse, SockEv.write replyNotAllowed,
       SockEv.closeClient, SockEv.closeClient] := by
    unfold destOf at hdest
    by_cases ha1 : atyp = 1
    · subst ha1
      by_cases hlen : addr.length = 4
      · simp only [hlen, reduceIte, Option.some.injEq] at hdest
        have hrd : readExactly 4 (addr ++ (port / 256 :: port % 256 :: tail)) =
            some (addr, port / 256 :: port % 256 :: tail) := by
          rw [← hlen]; exact readExactly_len _ _
        simp [connect_request, _handle_client, _handle_client_body, parseDest,
          readExactly_one, readExactly_four, readExactly_two, readExactly_len,
          hrd, hp, hdest, hdeny]
      · simp [hlen] at hdest
    · by_cases ha3 : atyp = 3
      · subst ha3
        cases addr with
        | nil => simp [ha1] at hdest
        | cons n rest =>
          by_cases hlen : rest.length = n
          · simp only [ha1, hlen, reduceIte, Option.some.injEq] at hdest
            have hrd : readExactly n (rest ++ (port / 256 :: port % 256 :: tail)) =
                some (rest, port / 256 :: port % 256 :: tail) := by
              rw [← hlen]; exact readExactly_len _ _
            simp [connect_request, _handle_client, _handle_client_body, parseDest,
              readExactly_one, readExactly_four, readExactly_two, readExactly_len,
              hrd, hp, hdest, hdeny, List.cons_append]
          · simp [ha1, hlen] at hdest
      · simp [ha1, ha3] at hdest
  refine ⟨hmain, ?_⟩
  intro h p
  rw [hmain]
  simp

/-- C1 witness: a denied IPv4 CONNECT to `1.2.3.4:443` gets the `0x02`
reply and a close, with no dial. -/
theorem socks_deny_witness :
    _handle_client
        (fun d p => if d = "1.2.3.4" ∧ p = 443 then some "deny" else none)
        (fun _ _ => true)
        (connect_request [0] 1 [1, 2, 3, 4] 443 []) =
      [SockEv.write methodResponse, SockEv.write replyNotAllowed,
       SockEv.closeClient, SockEv.closeClient]
    ∧ ∀ h p, SockEv.dial h p ∉
        _handle_client
          (fun d p => if d = "1.2.3.4" ∧ p = 443 then some "deny" else none)
          (fun _ _ => true)
          (connect_request [0] 1 [1, 2, 3, 4] 443 []) :=
  socks_deny_closes_without_dial
    (fun d p => if d = "1.2.3.4" ∧ p = 443 then some "deny" else none)
    (fun _ _ => true) [0] [1, 2, 3, 4] [] 1 443 "1.2.3.4" (by decide) (by decide)

/-! ## `vm.start` teardown (the `finally` block) and `enrichment.clear_vm_state`

`vm.start` waits on the hypervisor child inside `try: proc.wait()`; the
`finally` block calls `vm._stop_proxy(name)` (which stops the proxy's
event loop and drops the per-VM loop/thread/server references — it does
not set `proxy._proxy_intentional_stop` and it does not touch
`enrichment`'s caches) and then unlinks the `pid`, `qmp.sock` and
`proxy_port` files.  `enrichment.clear_vm_state` exists but no caller in
`vm.py` (or anywhere else) invokes it. -/

/-- The process-global per-VM caches owned by `enrichment.py`. -/
structure GlobalCaches where
  /-- `_dns_cache : vm_name -> {ip -> domain}` -/
  dns_cache : List (String × List (String × String))
  /-- `_recent_connections : vm_name -> deque[ConnectionRecord]` -/
  recent_connections : List (String × List ConnectionRecord)
deriving DecidableEq, Repr

/-- `enrichment.clear_vm_state(vm_name)`: pop both per-VM entries. -/
def clear_vm_state (caches : GlobalCaches) (vm_name : String) : GlobalCaches :=
  { dns_cache := caches.dns_cache.filter (fun p => p.1 != vm_name)
    recent_connections := caches.recent_connections.filter (fun p => p.1 != vm_name) }

/-- What the teardown leaves behind. -/
structure TeardownResult where
  /-- names of the files present in the VM directory -/
  files : List String
  /-- the global enrichment caches -/
  caches : GlobalCaches
  /-- the proxy thread's event loop was asked to stop -/
  proxy_loop_stopped : Bool
  /-- `proxy._proxy_intentional_stop` gained this VM -/
  intentional_stop_flag_set : Bool
deriving DecidableEq, Repr

/-- The `finally` block of `vm.start` (vm.py:324-330): `_stop_proxy(name)`
followed by unlinking `pid`, `qmp.sock` and `proxy_port`.  The enrichment
caches are passed through untouched because nothing in the block (or in
`_stop_proxy`) calls `clear_vm_state`. -/
def start_teardown (files : List String) (caches : GlobalCaches) (_vm_name : String) :
    TeardownResult :=
  { files := files.filter
      (fun f => f != "pid" && f != "qmp.sock" && f != "proxy_port")
    caches := caches
    proxy_loop_stopped := true
    intentional_stop_flag_set := false }

/-! ## Theorems: teardown leaves the caches populated (C7) -/

/-- The VM directory of a started VM at hypervisor exit. -/
def c7Files : List String :=
  ["vm.toml", "disk.qcow2", "efivars.fd", "pid", "qmp.sock", "proxy_port"]

/-- Caches as they stand after one enriched, allowed connection. -/
def c7Caches : GlobalCaches :=
  { dns_cache := [("v1", [("140.82.121.4", "api.github.com")])]
    recent_connections :=
      [("v1", [{ dest_ip := "140.82.121.4", dest_port := 443,
                 domain := some "api.github.com", decision := "allow" }])] }

/-- C7 (code bug): the teardown does unlink the pid file, management
socket and `proxy_port` file — only `vm.toml`, `disk.qcow2` and
`efivars.fd` remain — but it leaves the per-VM DNS cache and
recent-decision FIFO exactly as they were (nonempty here), and it never
sets the intentional-stop flag: `enrichment.clear_vm_state`, whose own
docstring says to call it on shutdown, has no caller. -/
theorem start_teardown_leaves_caches :
    (start_teardown c7Files c7Caches "v1").files = ["vm.toml", "disk.qcow2", "efivars.fd"]
    ∧ (start_teardown c7Files c7Caches "v1").caches = c7Caches
    ∧ (start_teardown c7Files c7Caches "v1").caches.dns_cache ≠ []
    ∧ (start_teardown c7Files c7Caches "v1").caches.recent_connections ≠ []
    ∧ (start_teardown c7Files c7Caches "v1").intentional_stop_flag_set = false
    ∧ (clear_vm_state c7Caches "v1").dns_cache = []
    ∧ (clear_vm_state c7Caches "v1").recent_connections = [] :=
  ⟨rfl, rfl, by decide, by decide, rfl, rfl, rfl⟩
